import Mathlib

/-!
Shallow embedding of the metrics-instrumented reverse proxy in
`src/prometheus_exporter.py` (endpoints `/invocations`, `/health`) and of the
variant exporter in `src/3.prometheus_exporter.py` (endpoint `/predict`).

Each handler is modelled as a pure function from the outcomes of its two
effectful steps (reading the inbound request, dispatching to the upstream)
to the list of metric operations it performs, in program order, together
with the HTTP response it returns.  Wall-clock latency is abstracted as a
`Nat` parameter `t` (the value of `time.perf_counter() - start` at the
moment a branch observes it): no claim depends on its numeric value, only
on how many observations happen.
-/

/-- The fixed `model_name` label value (`MODEL_NAME` in the source,
default `"creditscoring"`). -/
def MODEL_NAME : String := "creditscoring"

/-- The fixed `model_version` label value (`MODEL_VERSION` in the source). -/
def MODEL_VERSION : String := "e62a3c7b79ff4917b875b53f82e4665e"

/-- One metric mutation performed by `prometheus_exporter.py`, named after the
metric object it touches.  Label values are carried explicitly. -/
inductive MetricOp where
  /-- `REQ_TOTAL.labels(m, v, status).inc()` -/
  | incReqTotal (model version status : String)
  /-- `REQ_ERRORS.labels(m, v, error_type).inc()` -/
  | incReqErrors (model version errorType : String)
  /-- `REQ_LATENCY.labels(m, v).observe(latency)` -/
  | observeLatency (model version : String) (v : Nat)
  /-- `INPROGRESS.labels(m, v).inc()` -/
  | incInprogress (model version : String)
  /-- `INPROGRESS.labels(m, v).dec()` -/
  | decInprogress (model version : String)
  /-- `UPSTREAM_UP.labels(m, v).set(x)` -/
  | setUpstreamUp (model version : String) (x : Nat)
  /-- `PAYLOAD_BYTES.labels(m, v).observe(n)` -/
  | observePayload (model version : String) (n : Nat)
deriving DecidableEq

/-- An HTTP response as built by the handlers
(`Response` / `PlainTextResponse` / `JSONResponse` keyword arguments). -/
structure HttpResponse where
  status_code : Nat
  content : String
  media_type : String
deriving DecidableEq

/-- Outcome of `body = await request.body()` (line 99).  On success the
handler only ever uses `len(body)`, so the body is abstracted to its byte
length; `declaredContentLength` models the request's `Content-Length`
header, which the handler never consults.  `fail` models the read raising
(e.g. `starlette.requests.ClientDisconnect`): line 99 sits before the
`try:` of line 105, so the exception propagates out of the handler. -/
inductive ReadOutcome where
  | ok (bodyLen : Nat) (declaredContentLength : Option Nat)
  | fail (excMsg : String)
deriving DecidableEq

/-- Outcome of `client.post(MLFLOW_SCORING_URL, ...)` (line 106), at the
granularity of the handler's `except` clauses.  `httpx` raises
`ConnectError` when no connection could be established; every timeout
class (`ConnectTimeout`, `ReadTimeout`, ...) derives from
`TimeoutException`, which is *not* a `ConnectError`, so timeouts and all
other faults reach the `except Exception` clause.  `excName` is
`type(e).__name__`, `excMsg` is `str(e)`. -/
inductive DispatchOutcome where
  | ok (status_code : Nat) (content : String) (contentType : Option String)
  | connectError (excMsg : String)
  | timeout (excName excMsg : String)
  | otherError (excName excMsg : String)
deriving DecidableEq

/-- `_is_2xx` from the source: `200 <= code < 300`. -/
def _is_2xx (code : Nat) : Bool := 200 ≤ code && code < 300

/-- The body of the `try`/`except` statement of `invocations`
(lines 105-130): metric operations in program order plus the response the
taken branch returns.  The `finally` clause is appended by `invocations`
itself, mirroring that it runs after the branch's `return` value is
built. -/
def invocationsBranch (t : Nat) : DispatchOutcome → List MetricOp × HttpResponse
  | .ok s content ct =>
      ([.observeLatency MODEL_NAME MODEL_VERSION t,
        .incReqTotal MODEL_NAME MODEL_VERSION (toString s)] ++
        (if _is_2xx s then []
         else [.incReqErrors MODEL_NAME MODEL_VERSION "upstream_non_2xx"]),
       ⟨s, content, ct.getD "application/json"⟩)
  | .connectError _ =>
      ([.observeLatency MODEL_NAME MODEL_VERSION t,
        .incReqTotal MODEL_NAME MODEL_VERSION "502",
        .incReqErrors MODEL_NAME MODEL_VERSION "connect_error",
        .setUpstreamUp MODEL_NAME MODEL_VERSION 0],
       ⟨502, "Upstream MLflow server unreachable", "text/plain"⟩)
  | .timeout excName _ =>
      ([.observeLatency MODEL_NAME MODEL_VERSION t,
        .incReqTotal MODEL_NAME MODEL_VERSION "500",
        .incReqErrors MODEL_NAME MODEL_VERSION "unexpected_exception"],
       ⟨500, "Internal proxy error: " ++ excName, "text/plain"⟩)
  | .otherError excName _ =>
      ([.observeLatency MODEL_NAME MODEL_VERSION t,
        .incReqTotal MODEL_NAME MODEL_VERSION "500",
        .incReqErrors MODEL_NAME MODEL_VERSION "unexpected_exception"],
       ⟨500, "Internal proxy error: " ++ excName, "text/plain"⟩)

/-- The `POST /invocations` handler (lines 94-133).  Program order:
`INPROGRESS.inc()` (line 97); `await request.body()` (line 99) — if this
raises, the `try:` of line 105 is never entered and its `finally:` does
not run, so the trace stops there and no response is produced (`none`);
otherwise `PAYLOAD_BYTES.observe(len(body))` (line 100), then the
dispatch branch, then the `finally:` decrement (line 133). -/
def invocations (t : Nat) (rd : ReadOutcome) (o : DispatchOutcome) :
    List MetricOp × Option HttpResponse :=
  match rd with
  | .fail _ => ([.incInprogress MODEL_NAME MODEL_VERSION], none)
  | .ok bodyLen _ =>
      ([.incInprogress MODEL_NAME MODEL_VERSION,
        .observePayload MODEL_NAME MODEL_VERSION bodyLen] ++
        (invocationsBranch t o).1 ++
        [.decInprogress MODEL_NAME MODEL_VERSION],
       some (invocationsBranch t o).2)

/-- Outcome of the health probe's `client.get(...)` (line 87):
either a response (any status code) or any raised exception. -/
inductive HealthOutcome where
  | ok (status_code : Nat)
  | exc (excMsg : String)
deriving DecidableEq

/-- The JSON body returned by the `/health` handler. -/
structure HealthResult where
  status : String
  upstream : String
  code : Option Nat
deriving DecidableEq

/-- The `GET /health` handler (lines 82-92): on any response sets the
upstream-up gauge to 1 and reports reachable with the probe's status
code; on any exception sets it to 0 and reports degraded. -/
def health : HealthOutcome → List MetricOp × HealthResult
  | .ok s => ([.setUpstreamUp MODEL_NAME MODEL_VERSION 1], ⟨"ok", "reachable", some s⟩)
  | .exc _ => ([.setUpstreamUp MODEL_NAME MODEL_VERSION 0], ⟨"degraded", "unreachable", none⟩)

/-! Embedding of the variant exporter `src/3.prometheus_exporter.py`,
endpoint `POST /predict`.  Its `endpoint`/`method` labels are the
constants `"/predict"`/`"POST"`; they are left implicit. -/

/-- One metric mutation performed by `3.prometheus_exporter.py`'s
`predict` handler, named after the metric object it touches. -/
inductive PMetricOp where
  /-- `HTTP_REQUESTS_TOTAL.labels(..., status_code=s).inc()` -/
  | incHttpRequestsTotal (status : String)
  /-- `HTTP_REQUEST_ERRORS_TOTAL.labels(..., error_type=e).inc()` -/
  | incHttpRequestErrorsTotal (errorType : String)
  /-- `REQUEST_LATENCY_SECONDS.labels(...).observe(v)` -/
  | observeRequestLatency (v : Nat)
  /-- `MODEL_PREDICTIONS_TOTAL.labels(status=s).inc()` -/
  | incModelPredictionsTotal (status : String)
deriving DecidableEq

/-- Outcome of `payload = await request.json()` (line 54). -/
inductive PredictReadOutcome where
  | okJson
  | invalidJson (excMsg : String)
deriving DecidableEq

/-- Outcome of `requests.post(MLFLOW_INVOCATIONS_URL, ...)` (line 61).
`resp` carries the upstream status code, `resp.text`, and whether
`resp.json()` succeeds; `timeout` is `requests.exceptions.Timeout`;
`exc` is any other exception, with `excMsg = str(e)`. -/
inductive PredictDispatchOutcome where
  | resp (status_code : Nat) (text : String) (jsonOk : Bool)
  | timeout (excMsg : String)
  | exc (excMsg : String)
deriving DecidableEq

/-- `requests.Response.ok`: true iff `status_code < 400`. -/
def resp_ok (status_code : Nat) : Bool := status_code < 400

/-- Rendering of the JSON body `{"status": "error", "message": msg}`
returned on `predict`'s failure paths. -/
def jsonStatusError (msg : String) : String :=
  "\x7b\"status\": \"error\", \"message\": \"" ++ msg ++ "\"\x7d"

/-- Rendering of the JSON body the `predict` handler returns for a non-ok
upstream response (lines 74-77), which embeds the upstream status and
`resp.text`. -/
def jsonNon2xxWrap (status_code : Nat) (text : String) : String :=
  "\x7b\"status\": \"error\", \"message\": \"Upstream MLflow non-2xx\", " ++
  "\"upstream_status\": " ++ toString status_code ++
  ", \"upstream_body\": \"" ++ text ++ "\"\x7d"

/-- The `POST /predict` handler of the variant exporter (lines 47-91),
as metric operations in program order plus the returned response.
`resp.json()` re-serialisation on the ok path is abstracted as returning
the upstream text unchanged when it parses. -/
def predict (t : Nat) (rd : PredictReadOutcome) (o : PredictDispatchOutcome) :
    List PMetricOp × HttpResponse :=
  match rd with
  | .invalidJson msg =>
      ([.incHttpRequestErrorsTotal "invalid_json",
        .incHttpRequestsTotal "400"],
       ⟨400, jsonStatusError ("Invalid JSON: " ++ msg), "application/json"⟩)
  | .okJson =>
    match o with
    | .resp s text jsonOk =>
        ([.observeRequestLatency t, .incHttpRequestsTotal (toString s)] ++
          (if resp_ok s then [.incModelPredictionsTotal "success"]
           else [.incModelPredictionsTotal "failed",
                 .incHttpRequestErrorsTotal "mlflow_non_2xx"]),
         if resp_ok s then
           (if jsonOk then ⟨200, text, "application/json"⟩
            else ⟨200, "\x7b\"result\": \"" ++ text ++ "\"\x7d", "application/json"⟩)
         else ⟨502, jsonNon2xxWrap s text, "application/json"⟩)
    | .timeout _ =>
        ([.observeRequestLatency t, .incHttpRequestsTotal "504",
          .incHttpRequestErrorsTotal "timeout", .incModelPredictionsTotal "failed"],
         ⟨504, jsonStatusError "Timeout to MLflow invocations", "application/json"⟩)
    | .exc msg =>
        ([.observeRequestLatency t, .incHttpRequestsTotal "500",
          .incHttpRequestErrorsTotal "exception", .incModelPredictionsTotal "failed"],
         ⟨500, jsonStatusError msg, "application/json"⟩)

/-! Observation helpers over metric traces. -/

/-- Number of operations in a trace satisfying `p`. -/
def countOps {α : Type} (p : α → Bool) (tr : List α) : Nat := (tr.filter p).length

/-- Discriminator: is this an `INPROGRESS` increment? -/
def isIncInprogress : MetricOp → Bool
  | .incInprogress _ _ => true
  | _ => false

/-- Discriminator: is this an `INPROGRESS` decrement? -/
def isDecInprogress : MetricOp → Bool
  | .decInprogress _ _ => true
  | _ => false

/-- Discriminator: is this a `REQ_LATENCY` observation? -/
def isLatencyObs : MetricOp → Bool
  | .observeLatency _ _ _ => true
  | _ => false

/-- Discriminator: is this a `REQ_TOTAL` increment (any status label)? -/
def isAnyReqTotalInc : MetricOp → Bool
  | .incReqTotal _ _ _ => true
  | _ => false

/-- Discriminator: is this a `REQ_TOTAL` increment with the given status label? -/
def isReqTotalInc (status : String) : MetricOp → Bool
  | .incReqTotal _ _ s => s == status
  | _ => false

/-- Discriminator: is this a `REQ_ERRORS` increment with the given error type? -/
def isReqErrorsInc (errorType : String) : MetricOp → Bool
  | .incReqErrors _ _ e => e == errorType
  | _ => false

/-- Values written to the `UPSTREAM_UP` gauge by a trace, in order. -/
def upstreamUpWrites (tr : List MetricOp) : List Nat :=
  tr.filterMap fun op => match op with
    | .setUpstreamUp _ _ x => some x
    | _ => none

/-- Values observed into `PAYLOAD_BYTES` by a trace, in order. -/
def payloadObsValues (tr : List MetricOp) : List Nat :=
  tr.filterMap fun op => match op with
    | .observePayload _ _ n => some n
    | _ => none

/-- The `UPSTREAM_UP` gauge value after running a trace from value `g`
(later `set`s overwrite earlier ones; nothing else touches the gauge). -/
def applyUpstreamUp (g : Nat) (tr : List MetricOp) : Nat :=
  tr.foldl (fun v op => match op with
    | .setUpstreamUp _ _ x => x
    | _ => v) g

/-- Discriminator: does this operation touch only the latency histogram,
the total-requests counter, or the errors counter? -/
def isCoreFailureOp : MetricOp → Bool
  | .observeLatency _ _ _ => true
  | .incReqTotal _ _ _ => true
  | .incReqErrors _ _ _ => true
  | _ => false

/-- Discriminator for the variant exporter: is this an
`HTTP_REQUEST_ERRORS_TOTAL` increment with the given error type? -/
def isPErrorsInc (errorType : String) : PMetricOp → Bool
  | .incHttpRequestErrorsTotal e => e == errorType
  | _ => false

/-- `containsStr s pat` holds when `pat` occurs contiguously inside `s`. -/
def containsStr (s pat : String) : Prop := ∃ a b, s = a ++ pat ++ b

/-! Helper lemmas shared by the claim theorems. -/

/-- `countOps` distributes over list append. -/
theorem countOps_append {α : Type} (p : α → Bool) (a b : List α) :
    countOps p (a ++ b) = countOps p a + countOps p b := by
  simp [countOps]

/-- The dispatch branch performs no `PAYLOAD_BYTES` observation. -/
theorem payloadObsValues_branch (t : Nat) (o : DispatchOutcome) :
    payloadObsValues (invocationsBranch t o).1 = [] := by
  cases o with
  | ok s c ct =>
      simp only [invocationsBranch, payloadObsValues]
      split <;> rfl
  | connectError m => rfl
  | timeout n m => rfl
  | otherError n m => rfl

/-- The dispatch branch performs exactly one latency observation and
exactly one `REQ_TOTAL` increment. -/
theorem branch_counts (t : Nat) (o : DispatchOutcome) :
    countOps isLatencyObs (invocationsBranch t o).1 = 1 ∧
    countOps isAnyReqTotalInc (invocationsBranch t o).1 = 1 := by
  cases o with
  | ok s c ct =>
      constructor <;>
        · simp only [invocationsBranch]
          split <;> rfl
  | connectError m => exact ⟨rfl, rfl⟩
  | timeout n m => exact ⟨rfl, rfl⟩
  | otherError n m => exact ⟨rfl, rfl⟩

/-- Claim C1 (code bug): evaluation at the failing input.  When
`await request.body()` raises (e.g. the client disconnects mid-body), the
handler has already incremented the in-progress gauge, but the `finally`
decrement — which belongs to the `try` statement that was never entered —
does not run: the trace holds one increment and zero decrements, so the
gauge does not return to its pre-request value. -/
theorem gauge_not_decremented_on_body_read_failure :
    countOps isIncInprogress
      (invocations 0 (.fail "client disconnected during body read") (.ok 200 "ok" none)).1 = 1 ∧
    countOps isDecInprogress
      (invocations 0 (.fail "client disconnected during body read") (.ok 200 "ok" none)).1 = 0 :=
  ⟨rfl, rfl⟩

/-- Claim C3 counterexample: a request whose body read faults records zero
latency observations and zero total-requests increments, contradicting
"exactly one ... regardless of whether ... the handler itself faults". -/
theorem no_latency_or_total_on_body_read_failure :
    countOps isLatencyObs
      (invocations 0 (.fail "client disconnect") (.ok 200 "ok" none)).1 = 0 ∧
    countOps isAnyReqTotalInc
      (invocations 0 (.fail "client disconnect") (.ok 200 "ok" none)).1 = 0 :=
  ⟨rfl, rfl⟩

/-- Claim C3 (amended): for every `/invocations` request whose body is read
successfully, exactly one latency observation and exactly one
total-requests increment are recorded — never zero, never more than one —
whatever the dispatch outcome; if the body read itself faults, zero of
each are recorded. -/
theorem one_latency_one_total_per_dispatched_request (t bodyLen : Nat)
    (d : Option Nat) (o : DispatchOutcome) (m : String) :
    countOps isLatencyObs (invocations t (.ok bodyLen d) o).1 = 1 ∧
    countOps isAnyReqTotalInc (invocations t (.ok bodyLen d) o).1 = 1 ∧
    countOps isLatencyObs (invocations t (.fail m) o).1 = 0 ∧
    countOps isAnyReqTotalInc (invocations t (.fail m) o).1 = 0 := by
  refine ⟨?_, ?_, rfl, rfl⟩ <;>
    · show countOps _ ([_, _] ++ (invocationsBranch t o).1 ++ [_]) = 1
      rw [countOps_append, countOps_append]
      rcases branch_counts t o with ⟨h1, h2⟩
      first
        | rw [h1]
        | rw [h2]
      rfl

/-- Claim C4 counterexample: a connect timeout is a dispatch that ends
with no connection established, yet `httpx.ConnectTimeout` derives from
`TimeoutException`, not `ConnectError`, so it bypasses the
connect-failure branch: no "502" total increment, no `connect_error`
increment, no upstream-up gauge write, and the caller receives 500 with
a generic diagnostic instead of the 502 unreachable message. -/
theorem connect_timeout_not_classified_as_connect_failure :
    countOps (isReqErrorsInc "connect_error")
      (invocations 0 (.ok 3 none)
        (.timeout "ConnectTimeout" "timed out while connecting")).1 = 0 ∧
    countOps (isReqTotalInc "502")
      (invocations 0 (.ok 3 none)
        (.timeout "ConnectTimeout" "timed out while connecting")).1 = 0 ∧
    upstreamUpWrites
      (invocations 0 (.ok 3 none)
        (.timeout "ConnectTimeout" "timed out while connecting")).1 = [] ∧
    (invocations 0 (.ok 3 none)
      (.timeout "ConnectTimeout" "timed out while connecting")).2 =
      some ⟨500, "Internal proxy error: ConnectTimeout", "text/plain"⟩ :=
  ⟨rfl, rfl, rfl, rfl⟩

/-- Claim C4 (amended): when the dispatch raises `httpx.ConnectError` the
handler records exactly one latency observation, one total-requests
increment labeled "502", one errors increment labeled `connect_error`,
writes 0 (and nothing else) to the upstream-up gauge, and answers 502
with the plain-text unreachable message; but a connect timeout — also a
no-connection-established failure — raises `ConnectTimeout`, which is
not a `ConnectError`, and is routed through the generic exception branch
instead: one `unexpected_exception` increment, no `connect_error`
increment, no gauge write, and a 500 response. -/
theorem connect_failure_branch_split (t bodyLen : Nat) (d : Option Nat) (m : String) :
    countOps isLatencyObs (invocations t (.ok bodyLen d) (.connectError m)).1 = 1 ∧
    countOps (isReqTotalInc "502") (invocations t (.ok bodyLen d) (.connectError m)).1 = 1 ∧
    countOps (isReqErrorsInc "connect_error")
      (invocations t (.ok bodyLen d) (.connectError m)).1 = 1 ∧
    upstreamUpWrites (invocations t (.ok bodyLen d) (.connectError m)).1 = [0] ∧
    (invocations t (.ok bodyLen d) (.connectError m)).2 =
      some ⟨502, "Upstream MLflow server unreachable", "text/plain"⟩ ∧
    countOps (isReqErrorsInc "connect_error")
      (invocations t (.ok bodyLen d) (.timeout "ConnectTimeout" m)).1 = 0 ∧
    countOps (isReqErrorsInc "unexpected_exception")
      (invocations t (.ok bodyLen d) (.timeout "ConnectTimeout" m)).1 = 1 ∧
    upstreamUpWrites (invocations t (.ok bodyLen d) (.timeout "ConnectTimeout" m)).1 = [] ∧
    (invocations t (.ok bodyLen d) (.timeout "ConnectTimeout" m)).2 =
      some ⟨500, "Internal proxy error: ConnectTimeout", "text/plain"⟩ :=
  ⟨rfl, rfl, rfl, rfl, rfl, rfl, rfl, rfl, rfl⟩

/-- Claim C9: for every `/invocations` request whose body is read
successfully, exactly one payload-size observation is recorded, its value
is the actual number of bytes read (`len(body)`, whatever the declared
`Content-Length` header says), and it is the second trace event — before
any dispatch-branch event — so it happens for every dispatch outcome. -/
theorem payload_observed_once_before_dispatch (t bodyLen : Nat)
    (d : Option Nat) (o : DispatchOutcome) :
    payloadObsValues (invocations t (.ok bodyLen d) o).1 = [bodyLen] ∧
    List.take 2 (invocations t (.ok bodyLen d) o).1 =
      [.incInprogress MODEL_NAME MODEL_VERSION,
       .observePayload MODEL_NAME MODEL_VERSION bodyLen] := by
  constructor
  · show payloadObsValues ([_, _] ++ (invocationsBranch t o).1 ++ [_]) = [bodyLen]
    simp only [payloadObsValues, List.filterMap_append] at *
    rw [show (List.filterMap _ (invocationsBranch t o).1 : List Nat) =
          payloadObsValues (invocationsBranch t o).1 from rfl,
        payloadObsValues_branch]
    rfl
  · rfl

/-- Claim C10: the generic-exception branch (timeouts and all other
non-connect transport failures) touches only the latency histogram, the
total-requests counter and the errors counter — in particular it never
writes the upstream-up gauge; of all failure branches only the
connect-failure branch writes that gauge (to 0). -/
theorem generic_branch_frame (t : Nat) (n m : String) :
    ((invocationsBranch t (.timeout n m)).1).all isCoreFailureOp = true ∧
    ((invocationsBranch t (.otherError n m)).1).all isCoreFailureOp = true ∧
    upstreamUpWrites (invocationsBranch t (.timeout n m)).1 = [] ∧
    upstreamUpWrites (invocationsBranch t (.otherError n m)).1 = [] ∧
    upstreamUpWrites (invocationsBranch t (.connectError m)).1 = [0] :=
  ⟨rfl, rfl, rfl, rfl, rfl⟩

/-- Claim C2 counterexample: the variant exporter's `predict` handler does
not relay the upstream response — an upstream 404 reaches the caller as a
502 with a wrapped JSON body, not as the upstream's own status. -/
theorem predict_does_not_relay_upstream_status :
    (predict 0 .okJson (.resp 404 "not found" true)).2.status_code = 502 ∧
    (502 : Nat) ≠ 404 :=
  ⟨rfl, by decide⟩

/-- Claim C2 (amended): the main proxy's `/invocations` handler relays
every received upstream response with exactly the upstream status code and
body, and with the upstream content-type whenever the upstream supplied
one (`application/json` is substituted only when it did not); the variant
exporter's `/predict` handler does not relay verbatim. -/
theorem ok_response_relayed_verbatim (t bodyLen s : Nat) (d : Option Nat)
    (content ctype : String) (ct : Option String) :
    (invocations t (.ok bodyLen d) (.ok s content ct)).2 =
      some ⟨s, content, ct.getD "application/json"⟩ ∧
    (invocations t (.ok bodyLen d) (.ok s content (some ctype))).2 =
      some ⟨s, content, ctype⟩ :=
  ⟨rfl, rfl⟩

/-- Claim C5 counterexample: in the main proxy a timeout is caught by the
generic `except Exception` clause, so the errors counter with error-type
`timeout` is never incremented (the increment goes to
`unexpected_exception` instead). -/
theorem timeout_does_not_increment_timeout_label :
    countOps (isReqErrorsInc "timeout")
      (invocations 0 (.ok 3 none) (.timeout "ReadTimeout" "timed out")).1 = 0 ∧
    countOps (isReqErrorsInc "unexpected_exception")
      (invocations 0 (.ok 3 none) (.timeout "ReadTimeout" "timed out")).1 = 1 :=
  ⟨rfl, rfl⟩

/-- Claim C5 (amended): the main proxy has no separate timeout branch — a
timeout, like every other non-connect transport failure, increments the
errors counter with error-type `unexpected_exception` and yields a 500
plain-text diagnostic; the variant exporter's `predict` handler increments
error-type `timeout` with caller status 504 on a timeout, and error-type
`exception` (not `unexpected_exception`) with status 500 on any other
failure. -/
theorem generic_exception_classification (t bodyLen : Nat) (d : Option Nat)
    (n m : String) :
    countOps (isReqErrorsInc "unexpected_exception")
      (invocations t (.ok bodyLen d) (.timeout n m)).1 = 1 ∧
    (invocations t (.ok bodyLen d) (.timeout n m)).2 =
      some ⟨500, "Internal proxy error: " ++ n, "text/plain"⟩ ∧
    countOps (isReqErrorsInc "unexpected_exception")
      (invocations t (.ok bodyLen d) (.otherError n m)).1 = 1 ∧
    (invocations t (.ok bodyLen d) (.otherError n m)).2 =
      some ⟨500, "Internal proxy error: " ++ n, "text/plain"⟩ ∧
    countOps (isPErrorsInc "timeout") (predict t .okJson (.timeout m)).1 = 1 ∧
    (predict t .okJson (.timeout m)).2.status_code = 504 ∧
    countOps (isPErrorsInc "exception") (predict t .okJson (.exc m)).1 = 1 ∧
    (predict t .okJson (.exc m)).2.status_code = 500 :=
  ⟨rfl, rfl, rfl, rfl, rfl, rfl, rfl, rfl⟩

/-- Claim C6 counterexample: in the variant exporter an upstream 500 (well
outside [200,300)) does not increment any `upstream_non_2xx` error series
— that handler uses the label `mlflow_non_2xx` — so the claimed "if and
only if" fails there. -/
theorem predict_uses_mlflow_non_2xx_label :
    countOps (isPErrorsInc "upstream_non_2xx")
      (predict 0 .okJson (.resp 500 "err" true)).1 = 0 ∧
    countOps (isPErrorsInc "mlflow_non_2xx")
      (predict 0 .okJson (.resp 500 "err" true)).1 = 1 ∧
    _is_2xx 500 = false :=
  ⟨rfl, rfl, by decide⟩

/-- Claim C6 (amended): in the main proxy's `/invocations` handler the
errors counter with error-type `upstream_non_2xx` is incremented exactly
once when the upstream status lies outside [200,300) and not at all
otherwise, and the upstream response is still relayed either way; the
variant exporter instead increments the label `mlflow_non_2xx`, and it
does so exactly when the status is ≥ 400 (`requests`' `ok` predicate),
without relaying. -/
theorem upstream_non_2xx_error_counting (t bodyLen s : Nat) (d : Option Nat)
    (content : String) (ct : Option String) (j : Bool) :
    countOps (isReqErrorsInc "upstream_non_2xx")
      (invocations t (.ok bodyLen d) (.ok s content ct)).1 =
      (if _is_2xx s then 0 else 1) ∧
    (invocations t (.ok bodyLen d) (.ok s content ct)).2 =
      some ⟨s, content, ct.getD "application/json"⟩ ∧
    countOps (isPErrorsInc "mlflow_non_2xx")
      (predict t .okJson (.resp s content j)).1 =
      (if resp_ok s then 0 else 1) := by
  refine ⟨?_, rfl, ?_⟩
  · cases h : _is_2xx s <;>
      simp [invocations, invocationsBranch, h, countOps, isReqErrorsInc]
  · cases h : resp_ok s <;>
      simp [predict, h, countOps, isPErrorsInc]

/-- Claim C7 counterexample: the forwarding path never sets the
upstream-up gauge on success, so after a successful forward (here: a 200
relayed while the gauge holds 0, e.g. following a failed probe) the gauge
still holds 0, not the 1 the claim requires. -/
theorem successful_forward_leaves_gauge_at_zero :
    applyUpstreamUp 0
      (invocations 0 (.ok 3 none) (.ok 200 "ok" (some "application/json"))).1 = 0 ∧
    (0 : Nat) ≠ 1 :=
  ⟨rfl, by decide⟩

/-- Claim C7 (amended): the health prober overwrites the upstream-up gauge
on every probe — to 1 on any connection success regardless of the returned
status code, to 0 on any failure; the forwarding path writes the gauge
only in its connect-failure branch (to 0) and leaves it untouched on
success, timeout and other failures, so a successful forward does not
restore it to 1. -/
theorem upstream_up_gauge_writes (g t bodyLen s : Nat) (d : Option Nat)
    (content m n : String) (ct : Option String) :
    applyUpstreamUp g (health (.ok s)).1 = 1 ∧
    applyUpstreamUp g (health (.exc m)).1 = 0 ∧
    upstreamUpWrites (invocations t (.ok bodyLen d) (.connectError m)).1 = [0] ∧
    upstreamUpWrites (invocations t (.ok bodyLen d) (.ok s content ct)).1 = [] ∧
    upstreamUpWrites (invocations t (.ok bodyLen d) (.timeout n m)).1 = [] ∧
    upstreamUpWrites (invocations t (.ok bodyLen d) (.otherError n m)).1 = [] := by
  refine ⟨rfl, rfl, rfl, ?_, rfl, rfl⟩
  cases h : _is_2xx s <;>
    simp [invocations, invocationsBranch, h, upstreamUpWrites]

/-- Claim C8 counterexample: the variant exporter's generic exception
branch returns `{"status": "error", "message": str(e)}`, so the
exception's message text appears verbatim in the response body. -/
theorem predict_exception_message_in_body :
    (predict 0 .okJson (.exc "secret detail")).2.content =
      "\x7b\"status\": \"error\", \"message\": \"secret detail\"\x7d" ∧
    containsStr (predict 0 .okJson (.exc "secret detail")).2.content
      "secret detail" :=
  ⟨rfl, ⟨"\x7b\"status\": \"error\", \"message\": \"", "\"\x7d", rfl⟩⟩

/-- Claim C8 (amended): in the main proxy's `/invocations` handler every
transport-failure response body is independent of the exception's message
text and consists only of a coarse label — the fixed unreachable message
for connect failures, or "Internal proxy error: " followed by the
exception type name otherwise; the variant exporter's `predict` handler,
by contrast, embeds `str(e)` in its 500 response body. -/
theorem invocations_failure_body_coarse (t bodyLen : Nat) (d : Option Nat)
    (n m1 m2 : String) :
    (invocations t (.ok bodyLen d) (.connectError m1)).2 =
      (invocations t (.ok bodyLen d) (.connectError m2)).2 ∧
    (invocations t (.ok bodyLen d) (.timeout n m1)).2 =
      (invocations t (.ok bodyLen d) (.timeout n m2)).2 ∧
    (invocations t (.ok bodyLen d) (.otherError n m1)).2 =
      (invocations t (.ok bodyLen d) (.otherError n m2)).2 ∧
    (invocations t (.ok bodyLen d) (.timeout n m1)).2 =
      some ⟨500, "Internal proxy error: " ++ n, "text/plain"⟩ ∧
    (invocations t (.ok bodyLen d) (.otherError n m1)).2 =
      some ⟨500, "Internal proxy error: " ++ n, "text/plain"⟩ ∧
    (invocations t (.ok bodyLen d) (.connectError m1)).2 =
      some ⟨502, "Upstream MLflow server unreachable", "text/plain"⟩ :=
  ⟨rfl, rfl, rfl, rfl, rfl, rfl⟩
